import Mathlib

/-
Verification of the project-resource core of the "RealEstate Cinematic
Builder" backend (src/main.py): the document store model, identifier
validation, the create / get / list / update / render operations, and the
document-to-entity reconstitution helper.

The document store (MongoDB, reached through pymongo) is modelled as an
association list keyed by the 24-character hex rendering of the ObjectId,
with the `$set` / `$currentDate` update operators given their field-merge
semantics.  `database.py` and `schemas.py` are imported by the source but
are not among the provided files; the definitions taken from the spec for
those pieces are marked `Modelled from the spec:` in their doc comments.
-/

set_option autoImplicit false

namespace CinematicBuilder

/-- A scene record.  The source treats scenes as opaque ordered payload
(`Scene(**s)` reconstructs from a stored dictionary, `s.model_dump()`
serializes back); the dump/load pair is modelled as the identity on an
opaque record of key/value fields. -/
structure Scene where
  fields : List (String × String)
deriving DecidableEq

/-- A persisted document of the `videoproject` collection.  The store is
schemaless, so every field may be absent (`none`).  `updated_at` is the
server-assigned timestamp, modelled as a natural number. -/
structure StoredDoc where
  title : Option String
  description : Option String
  scenes : Option (List Scene)
  music : Option String
  status : Option String
  output_url : Option String
  updated_at : Option Nat
deriving DecidableEq

/-- The `videoproject` collection: documents keyed by the hex string form of
their store-assigned `_id`. -/
abbrev Store := List (String × StoredDoc)

/-- `find_one({_id: oid})`: the first document whose key equals the id. -/
def findDoc (store : Store) (id : String) : Option StoredDoc :=
  match store with
  | [] => none
  | (k, d) :: rest => if k = id then some d else findDoc rest id

/-- A single-document store write: the document stored under `id` (if any)
is replaced by `f` of itself; every other document is untouched.  This is
the effect of `find_one_and_update` / `update_one` on a matching filter. -/
def storeWrite (store : Store) (id : String) (f : StoredDoc → StoredDoc) : Store :=
  match store with
  | [] => []
  | (k, d) :: rest =>
      if k = id then (k, f d) :: rest else (k, d) :: storeWrite rest id f

/-- Hex-digit test used by `bson.ObjectId` string validation. -/
def isHexDigit (c : Char) : Bool :=
  (decide ('0' ≤ c) && decide (c ≤ '9')) ||
  (decide ('a' ≤ c) && decide (c ≤ 'f')) ||
  (decide ('A' ≤ c) && decide (c ≤ 'F'))

/-- `bson.ObjectId(raw)` accepts a string exactly when it is a well-formed
24-character hex string; on anything else it raises, which the endpoints
turn into HTTP 400 "Invalid project id". -/
def isValidObjectId (s : String) : Bool :=
  s.length == 24 && s.data.all isHexDigit

/-- The error taxonomy the endpoints surface. -/
inductive ApiError where
  | invalidIdentifier
  | projectNotFound
  | responseInvalid
deriving DecidableEq

/-- HTTP status code attached to each error by the source. -/
def ApiError.httpStatus : ApiError → Nat
  | .invalidIdentifier => 400
  | .projectNotFound => 404
  | .responseInvalid => 500

/-- The `ProjectOut` response model of src/main.py: `title` and `status` are
required strings, the rest optional. -/
structure ProjectOut where
  id : String
  title : String
  description : Option String
  scenes : List Scene
  music : Option String
  status : String
  output_url : Option String
deriving DecidableEq

/-- `_doc_to_out` (src/main.py lines 154-163): reconstitutes a `ProjectOut`
from a stored document, defaulting a missing `status` to `"draft"` and
missing `scenes` to the empty sequence.  A document with no `title` makes
pydantic reject the required `title: str` field, modelled as `none`. -/
def _doc_to_out (id : String) (d : StoredDoc) : Option ProjectOut :=
  match d.title with
  | none => none
  | some t =>
      some { id := id, title := t, description := d.description,
             scenes := d.scenes.getD [], music := d.music,
             status := d.status.getD "draft", output_url := d.output_url }

/-- One field of a pydantic partial-update payload: pydantic distinguishes a
field never sent (`unset`) from one explicitly sent as null (`null`) from
one sent with a value. -/
inductive PayloadField (α : Type) where
  | unset
  | null
  | value (a : α)
deriving DecidableEq

/-- The value a payload field contributes to
`{k: v for k, v in payload.model_dump(exclude_unset=True).items() if v is not None}`:
only a field explicitly sent with a non-null value survives into the
`$set` document. -/
def PayloadField.sentValue {α : Type} : PayloadField α → Option α
  | .value a => some a
  | _ => none

/-- `UpdateScenesRequest` (src/main.py lines 92-98): every field optional. -/
structure UpdateScenesRequest where
  title : PayloadField String
  description : PayloadField String
  scenes : PayloadField (List Scene)
  music : PayloadField String
  status : PayloadField String
  output_url : PayloadField String
deriving DecidableEq

/-- `$set` of one optional field: a key present in the update document
overwrites the stored value, an absent key leaves it untouched. -/
def applySet {α : Type} (new old : Option α) : Option α :=
  match new with
  | some a => some a
  | none => old

/-- Effect on a matching document of
`find_one_and_update({_id: oid}, {"$set": update_doc, "$currentDate": {"updated_at": True}})`
(src/main.py lines 112-116): every key of `update_doc` — exactly the fields
the payload explicitly sent with a non-null value — is overwritten, every
other field is untouched, and `updated_at` is stamped with the server
time. -/
def applyUpdateDoc (payload : UpdateScenesRequest) (now : Nat) (d : StoredDoc) : StoredDoc where
  title := applySet payload.title.sentValue d.title
  description := applySet payload.description.sentValue d.description
  scenes := applySet payload.scenes.sentValue d.scenes
  music := applySet payload.music.sentValue d.music
  status := applySet payload.status.sentValue d.status
  output_url := applySet payload.output_url.sentValue d.output_url
  updated_at := some now

/-- `get_project` (src/main.py lines 80-90).  Every endpoint is modelled as
a function from the store (and, for mutating calls, the server clock) to
the response together with the store it leaves behind, so that "performs no
store mutation" is statable even on error paths. -/
def get_project (store : Store) (project_id : String) :
    Except ApiError ProjectOut × Store :=
  if isValidObjectId project_id then
    match findDoc store project_id with
    | none => (.error .projectNotFound, store)
    | some d =>
        match _doc_to_out project_id d with
        | none => (.error .responseInvalid, store)
        | some out => (.ok out, store)
  else (.error .invalidIdentifier, store)

/-- `update_project` (src/main.py lines 100-119): parse the id, apply the
field-merge through `find_one_and_update` with `return_document=True`, 404
when no document matched, else serialize the post-update document.  The
store write happens before response serialization, so a document whose
reconstitution fails is still written. -/
def update_project (store : Store) (now : Nat) (project_id : String)
    (payload : UpdateScenesRequest) : Except ApiError ProjectOut × Store :=
  if isValidObjectId project_id then
    match findDoc store project_id with
    | none => (.error .projectNotFound, store)
    | some d =>
        let d2 := applyUpdateDoc payload now d
        let store2 := storeWrite store project_id (fun _ => d2)
        match _doc_to_out project_id d2 with
        | none => (.error .responseInvalid, store2)
        | some out => (.ok out, store2)
  else (.error .invalidIdentifier, store)

/-- The dummy video URL `f"https://files.example.com/videos/{req.project_id}.mp4"`
fabricated by the render endpoint. -/
def renderUrl (project_id : String) : String :=
  "https://files.example.com/videos/" ++ project_id ++ ".mp4"

/-- Response body of the render endpoint (src/main.py line 140). -/
structure RenderResponse where
  status : String
  message : String
  project_id : String
  output_url : String
deriving DecidableEq

/-- `render_video` (src/main.py lines 125-140): parse the id, look the
project up, then in a single `update_one` write `status="ready"` and the
fabricated `output_url` — note the update document carries no
`$currentDate`, so `updated_at` is not touched; `now` is the server time at
which the request runs and is unused by the source. -/
def render_video (store : Store) (_now : Nat) (project_id : String) :
    Except ApiError RenderResponse × Store :=
  if isValidObjectId project_id then
    match findDoc store project_id with
    | none => (.error .projectNotFound, store)
    | some _ =>
        let url := renderUrl project_id
        let store2 := storeWrite store project_id
          (fun d => { d with status := some "ready", output_url := some url })
        (.ok { status := "queued", message := "Render started. This is a simulation.",
               project_id := project_id, output_url := url }, store2)
  else (.error .invalidIdentifier, store)

/-- Modelled from the spec: the `VideoProject` pydantic schema lives in
`schemas.py`, which is not among the provided sources.  Per spec §4.2,
create "constructs a document with status=draft, empty scene list if none
given"; the caller-visible fields are title (required), description,
scenes and music. -/
structure VideoProject where
  title : String
  description : Option String
  scenes : List Scene
  music : Option String
deriving DecidableEq

/-- Modelled from the spec: `create_document` lives in `database.py`, which
is not among the provided sources.  Per spec §4.1/§4.2 it assigns a fresh
identifier and persists the constructed document — `status=draft`, the
given scenes (empty if none given), no `output_url` — stamping the
server-assigned `updated_at`.  The fresh identifier and clock are passed
explicitly. -/
def create_document (store : Store) (newId : String) (now : Nat)
    (p : VideoProject) : Store :=
  store ++ [(newId,
    { title := some p.title, description := p.description,
      scenes := some p.scenes, music := p.music, status := some "draft",
      output_url := none, updated_at := some now })]

/-- `create_project` (src/main.py lines 67-72): insert, then re-read the
freshly inserted document by its id and reconstitute it. -/
def create_project (store : Store) (newId : String) (now : Nat)
    (p : VideoProject) : Except ApiError ProjectOut × Store :=
  let store2 := create_document store newId now p
  match findDoc store2 newId with
  | none => (.error .projectNotFound, store2)
  | some d =>
      match _doc_to_out newId d with
      | none => (.error .responseInvalid, store2)
      | some out => (.ok out, store2)

/-- Modelled from the spec: `get_documents` lives in `database.py`, which is
not among the provided sources.  Per spec §4.1, `listAll(limit)` returns
the stored documents "capped at limit" in the store's natural order. -/
def get_documents (store : Store) (limit : Nat) : List (String × StoredDoc) :=
  store.take limit

/-- `list_projects` (src/main.py lines 74-78): reconstitute each listed
document; any document that fails reconstitution fails the whole
response. -/
def list_projects (store : Store) (limit : Nat) :
    Except ApiError (List ProjectOut) × Store :=
  match (get_documents store limit).mapM (fun kd => _doc_to_out kd.1 kd.2) with
  | none => (.error .responseInvalid, store)
  | some outs => (.ok outs, store)

/-- One API call against the store, for stating whole-history invariants. -/
inductive Op where
  | create (newId : String) (now : Nat) (p : VideoProject)
  | update (now : Nat) (id : String) (payload : UpdateScenesRequest)
  | render (now : Nat) (id : String)
  | get (id : String)
  | list (limit : Nat)
deriving DecidableEq

/-- The store each operation leaves behind. -/
def stepStore (store : Store) : Op → Store
  | .create newId now p => (create_project store newId now p).2
  | .update now id payload => (update_project store now id payload).2
  | .render now id => (render_video store now id).2
  | .get id => (get_project store id).2
  | .list limit => (list_projects store limit).2

/-- The store after a sequence of API calls. -/
def runTrace (store : Store) (ops : List Op) : Store :=
  match ops with
  | [] => store
  | op :: rest => runTrace (stepStore store op) rest

/-- Whether one operation is a render that completes (valid id, existing
document) for the given identifier against the given store. -/
def renderCompletes (store : Store) (op : Op) (id : String) : Bool :=
  match op with
  | .render _ i => i == id && isValidObjectId i && (findDoc store i).isSome
  | _ => false

/-- Whether a trace starting from `store` contains a completed render for
the given identifier. -/
def traceRendered (store : Store) (ops : List Op) (id : String) : Bool :=
  match ops with
  | [] => false
  | op :: rest =>
      renderCompletes store op id || traceRendered (stepStore store op) rest id

/-- Whether the stored document under `id` currently has `output_url` set. -/
def outputUrlSet (store : Store) (id : String) : Bool :=
  match findDoc store id with
  | some d => d.output_url.isSome
  | none => false

/- Concrete data used by witnesses and counterexamples. -/

def sceneA : Scene := ⟨[("image", "a.jpg")]⟩

def sceneB : Scene := ⟨[("image", "b.jpg")]⟩

def idA : String := "0123456789abcdef01234567"

def docA : StoredDoc :=
  { title := some "123 Main St", description := none, scenes := some [sceneA],
    music := some "track.mp3", status := some "draft", output_url := none,
    updated_at := some 0 }

def storeA : Store := [(idA, docA)]

def payloadTitle : UpdateScenesRequest :=
  { title := .value "Updated Title", description := .unset, scenes := .unset,
    music := .unset, status := .unset, output_url := .null }

def payloadScenes : UpdateScenesRequest :=
  { title := .unset, description := .unset, scenes := .value [sceneB, sceneA],
    music := .unset, status := .unset, output_url := .unset }

def payloadOutput : UpdateScenesRequest :=
  { title := .unset, description := .unset, scenes := .unset,
    music := .unset, status := .unset,
    output_url := .value "https://elsewhere.example.com/v.mp4" }

def vpA : VideoProject :=
  { title := "123 Main St", description := none, scenes := [], music := none }

def docStamped : StoredDoc := { docA with updated_at := some 5 }

def storeStamped : Store := [(idA, docStamped)]

def docNoStatus : StoredDoc :=
  { title := some "Bare", description := none, scenes := none, music := none,
    status := none, output_url := none, updated_at := none }

def idB : String := "ffffffffffffffffffffffff"

def storeReady : Store :=
  [(idA, { docA with status := some "ready", output_url := some (renderUrl idA) })]

end CinematicBuilder

namespace CinematicBuilder

/- Lemmas about the store primitives. -/

lemma findDoc_storeWrite_self (s : Store) (id : String) (f : StoredDoc → StoredDoc) :
    findDoc (storeWrite s id f) id = (findDoc s id).map f := by
  induction s with
  | nil => rfl
  | cons kd rest ih =>
      obtain ⟨k, d⟩ := kd
      by_cases h : k = id
      · simp [storeWrite, findDoc, h]
      · simp [storeWrite, findDoc, h, ih]

lemma findDoc_storeWrite_ne (s : Store) (id j : String) (f : StoredDoc → StoredDoc)
    (h : id ≠ j) : findDoc (storeWrite s id f) j = findDoc s j := by
  induction s with
  | nil => rfl
  | cons kd rest ih =>
      obtain ⟨k, d⟩ := kd
      by_cases hk : k = id
      · subst hk
        simp [storeWrite, findDoc, h, ih]
      · by_cases hj : k = j
        · simp [storeWrite, findDoc, hk, hj, Ne.symm h]
        · simp [storeWrite, findDoc, hk, hj, ih]

lemma findDoc_append (s l : Store) (j : String) :
    findDoc (s ++ l) j =
      match findDoc s j with
      | some d => some d
      | none => findDoc l j := by
  induction s with
  | nil => simp [findDoc]
  | cons kd rest ih =>
      obtain ⟨k, d⟩ := kd
      by_cases h : k = j
      · simp [findDoc, h]
      · simp [findDoc, h, ih]

/- Lemmas computing the store component of each endpoint. -/

lemma get_project_snd (s : Store) (i : String) : (get_project s i).2 = s := by
  unfold get_project
  cases hv : isValidObjectId i
  · simp
  · cases hf : findDoc s i
    · simp [hf]
    · rename_i d
      cases h2 : _doc_to_out i d <;> simp [hf, h2]

lemma list_projects_snd (s : Store) (limit : Nat) : (list_projects s limit).2 = s := by
  unfold list_projects
  cases h : (get_documents s limit).mapM (fun kd => _doc_to_out kd.1 kd.2) <;> simp

lemma create_project_snd (s : Store) (newId : String) (now : Nat) (p : VideoProject) :
    (create_project s newId now p).2 = create_document s newId now p := by
  unfold create_project
  cases hf : findDoc (create_document s newId now p) newId
  · simp [hf]
  · rename_i d
    cases h2 : _doc_to_out newId d <;> simp [hf, h2]

lemma update_project_snd_found (s : Store) (now : Nat) (i : String)
    (payload : UpdateScenesRequest) (d : StoredDoc)
    (hv : isValidObjectId i = true) (hd : findDoc s i = some d) :
    (update_project s now i payload).2 =
      storeWrite s i (fun _ => applyUpdateDoc payload now d) := by
  unfold update_project
  cases h2 : _doc_to_out i (applyUpdateDoc payload now d) <;> simp [hv, hd, h2]

lemma update_project_snd_cases (s : Store) (now : Nat) (i : String)
    (payload : UpdateScenesRequest) :
    (update_project s now i payload).2 = s ∨
    ∃ d, findDoc s i = some d ∧
      (update_project s now i payload).2 =
        storeWrite s i (fun _ => applyUpdateDoc payload now d) := by
  cases hv : isValidObjectId i
  · left
    unfold update_project
    simp [hv]
  · cases hf : findDoc s i
    · left
      unfold update_project
      simp [hv, hf]
    · rename_i d
      exact Or.inr ⟨d, rfl, update_project_snd_found s now i payload d hv hf⟩

lemma render_video_found (s : Store) (now : Nat) (i : String) (d : StoredDoc)
    (hv : isValidObjectId i = true) (hd : findDoc s i = some d) :
    render_video s now i =
      (.ok { status := "queued", message := "Render started. This is a simulation.",
             project_id := i, output_url := renderUrl i },
       storeWrite s i
         (fun d0 => { d0 with status := some "ready", output_url := some (renderUrl i) })) := by
  unfold render_video
  simp [hv, hd]

lemma render_video_snd_cases (s : Store) (now : Nat) (i : String) :
    (render_video s now i).2 = s ∨
    (findDoc s i).isSome = true ∧
      (render_video s now i).2 =
        storeWrite s i
          (fun d0 => { d0 with status := some "ready", output_url := some (renderUrl i) }) := by
  cases hv : isValidObjectId i
  · left
    unfold render_video
    simp [hv]
  · cases hf : findDoc s i
    · left
      unfold render_video
      simp [hv, hf]
    · rename_i d
      right
      refine ⟨by simp [hf], ?_⟩
      rw [render_video_found s now i d hv hf]

/-- C1: for every update request, only fields explicitly present and
non-null in the payload overwrite the stored document; every omitted field
and every field sent as null is left untouched (in particular scenes survive
a title-only update), so a partial update never drops unmentioned fields. -/
theorem update_preserves_unsent_fields
    (store : Store) (now : Nat) (id : String) (payload : UpdateScenesRequest)
    (d d2 : StoredDoc)
    (hd : findDoc store id = some d)
    (hd2 : findDoc (update_project store now id payload).2 id = some d2) :
    (payload.title.sentValue = none → d2.title = d.title) ∧
    (payload.description.sentValue = none → d2.description = d.description) ∧
    (payload.scenes.sentValue = none → d2.scenes = d.scenes) ∧
    (payload.music.sentValue = none → d2.music = d.music) ∧
    (payload.status.sentValue = none → d2.status = d.status) ∧
    (payload.output_url.sentValue = none → d2.output_url = d.output_url) := by
  rcases update_project_snd_cases store now id payload with hsnd | ⟨du, hdu, hsnd⟩
  · rw [hsnd, hd] at hd2
    obtain rfl : d = d2 := Option.some.inj hd2
    exact ⟨fun _ => rfl, fun _ => rfl, fun _ => rfl, fun _ => rfl, fun _ => rfl,
           fun _ => rfl⟩
  · obtain rfl : du = d := by rw [hdu] at hd; exact Option.some.inj hd
    rw [hsnd, findDoc_storeWrite_self, hdu] at hd2
    obtain rfl : applyUpdateDoc payload now du = d2 := Option.some.inj hd2
    refine ⟨fun h => ?_, fun h => ?_, fun h => ?_, fun h => ?_, fun h => ?_,
            fun h => ?_⟩ <;>
      simp [applyUpdateDoc, applySet, h]

/-- C1 witness: a title-only update (with `output_url` explicitly null) on a
stored project leaves its scenes, music, status and output_url unchanged. -/
theorem update_preserves_unsent_fields_witness :
    findDoc storeA idA = some docA ∧
    findDoc (update_project storeA 1 idA payloadTitle).2 idA =
      some { docA with title := some "Updated Title", updated_at := some 1 } ∧
    ({ docA with title := some "Updated Title", updated_at := some 1 } : StoredDoc).scenes
        = docA.scenes ∧
    ({ docA with title := some "Updated Title", updated_at := some 1 } : StoredDoc).output_url
        = docA.output_url :=
  ⟨by decide, by decide,
   (update_preserves_unsent_fields storeA 1 idA payloadTitle docA
      { docA with title := some "Updated Title", updated_at := some 1 }
      (by decide) (by decide)).2.2.1 rfl,
   (update_preserves_unsent_fields storeA 1 idA payloadTitle docA
      { docA with title := some "Updated Title", updated_at := some 1 }
      (by decide) (by decide)).2.2.2.2.2 rfl⟩

/-- C2: for every identifier string that is not a well-formed 24-character
hex ObjectId, get, update and render each fail with the invalid-identifier
client error (HTTP 400) and leave the store exactly as it was. -/
theorem invalid_id_rejected_without_mutation
    (store : Store) (now : Nat) (id : String) (payload : UpdateScenesRequest)
    (h : isValidObjectId id = false) :
    get_project store id = (.error .invalidIdentifier, store) ∧
    update_project store now id payload = (.error .invalidIdentifier, store) ∧
    render_video store now id = (.error .invalidIdentifier, store) ∧
    ApiError.invalidIdentifier.httpStatus = 400 := by
  unfold get_project update_project render_video
  simp [h, ApiError.httpStatus]

/-- C2 witness: the malformed identifier "xyz" is rejected by all three
endpoints without touching the store. -/
theorem invalid_id_rejected_without_mutation_witness :
    isValidObjectId "xyz" = false ∧
    get_project storeA "xyz" = (.error .invalidIdentifier, storeA) ∧
    update_project storeA 0 "xyz" payloadTitle = (.error .invalidIdentifier, storeA) ∧
    render_video storeA 0 "xyz" = (.error .invalidIdentifier, storeA) :=
  ⟨by decide,
   (invalid_id_rejected_without_mutation storeA 0 "xyz" payloadTitle (by decide)).1,
   (invalid_id_rejected_without_mutation storeA 0 "xyz" payloadTitle (by decide)).2.1,
   (invalid_id_rejected_without_mutation storeA 0 "xyz" payloadTitle (by decide)).2.2.1⟩

/-- C3: for every well-formed identifier that matches no stored document,
get, update and render each fail with the not-found error (HTTP 404). -/
theorem unknown_id_not_found
    (store : Store) (now : Nat) (id : String) (payload : UpdateScenesRequest)
    (hv : isValidObjectId id = true) (hn : findDoc store id = none) :
    get_project store id = (.error .projectNotFound, store) ∧
    update_project store now id payload = (.error .projectNotFound, store) ∧
    render_video store now id = (.error .projectNotFound, store) ∧
    ApiError.projectNotFound.httpStatus = 404 := by
  unfold get_project update_project render_video
  simp [hv, hn, ApiError.httpStatus]

/-- C3 witness: a well-formed identifier absent from the store is answered
with not-found by all three endpoints. -/
theorem unknown_id_not_found_witness :
    isValidObjectId idB = true ∧ findDoc storeA idB = none ∧
    get_project storeA idB = (.error .projectNotFound, storeA) ∧
    render_video storeA 0 idB = (.error .projectNotFound, storeA) :=
  ⟨by decide, by decide,
   (unknown_id_not_found storeA 0 idB payloadTitle (by decide) (by decide)).1,
   (unknown_id_not_found storeA 0 idB payloadTitle (by decide) (by decide)).2.2.1⟩

/-- C4: a successful render writes `status="ready"` and the output URL
deterministically derived from the identifier to the stored document in a
single store write, and returns a response carrying the "queued" label, the
project id and that same output URL. -/
theorem render_marks_ready_and_returns_queued
    (store : Store) (now : Nat) (id : String) (d : StoredDoc)
    (hv : isValidObjectId id = true) (hd : findDoc store id = some d) :
    render_video store now id =
      (.ok { status := "queued", message := "Render started. This is a simulation.",
             project_id := id, output_url := renderUrl id },
       storeWrite store id
         (fun d0 => { d0 with status := some "ready", output_url := some (renderUrl id) })) ∧
    findDoc (render_video store now id).2 id =
      some { d with status := some "ready", output_url := some (renderUrl id) } := by
  have h := render_video_found store now id d hv hd
  refine ⟨h, ?_⟩
  simp only [h, findDoc_storeWrite_self, hd, Option.map_some']

/-- C4 witness: rendering the stored example project persists
`status="ready"` with the derived URL and answers with the "queued" label. -/
theorem render_marks_ready_and_returns_queued_witness :
    findDoc storeA idA = some docA ∧
    render_video storeA 7 idA =
      (.ok { status := "queued", message := "Render started. This is a simulation.",
             project_id := idA, output_url := renderUrl idA },
       storeWrite storeA idA
         (fun d0 => { d0 with status := some "ready", output_url := some (renderUrl idA) })) ∧
    findDoc (render_video storeA 7 idA).2 idA =
      some { docA with status := some "ready", output_url := some (renderUrl idA) } :=
  ⟨by decide,
   (render_marks_ready_and_returns_queued storeA 7 idA docA (by decide) (by decide)).1,
   (render_marks_ready_and_returns_queued storeA 7 idA docA (by decide) (by decide)).2⟩

/-- C5: rendering the same valid, existing identifier twice yields the same
output URL in both responses, and the stored status equals "ready" after
either call. -/
theorem render_idempotent
    (store : Store) (n1 n2 : Nat) (id : String) (d : StoredDoc)
    (hv : isValidObjectId id = true) (hd : findDoc store id = some d) :
    ∃ r1 r2 : RenderResponse,
      (render_video store n1 id).1 = .ok r1 ∧
      (render_video (render_video store n1 id).2 n2 id).1 = .ok r2 ∧
      r1.output_url = r2.output_url ∧
      (findDoc (render_video store n1 id).2 id).map StoredDoc.status =
        some (some "ready") ∧
      (findDoc (render_video (render_video store n1 id).2 n2 id).2 id).map
          StoredDoc.status = some (some "ready") := by
  have h1 := render_video_found store n1 id d hv hd
  have hf1 : findDoc (render_video store n1 id).2 id =
      some { d with status := some "ready", output_url := some (renderUrl id) } := by
    simp only [h1, findDoc_storeWrite_self, hd, Option.map_some']
  have h2 := render_video_found (render_video store n1 id).2 n2 id _ hv hf1
  have hf2 : findDoc (render_video (render_video store n1 id).2 n2 id).2 id =
      some { { d with status := some "ready", output_url := some (renderUrl id) } with
             status := some "ready", output_url := some (renderUrl id) } := by
    simp only [h2, findDoc_storeWrite_self, hf1, Option.map_some']
  exact ⟨_, _, by rw [h1], by rw [h2], rfl, by rw [hf1]; rfl, by rw [hf2]; rfl⟩

/-- C5 witness: two renders of the stored example project agree on the
output URL and leave status "ready" after either call. -/
theorem render_idempotent_witness :
    findDoc storeA idA = some docA ∧
    (∃ r1 r2 : RenderResponse,
      (render_video storeA 1 idA).1 = .ok r1 ∧
      (render_video (render_video storeA 1 idA).2 2 idA).1 = .ok r2 ∧
      r1.output_url = r2.output_url ∧
      (findDoc (render_video storeA 1 idA).2 idA).map StoredDoc.status =
        some (some "ready") ∧
      (findDoc (render_video (render_video storeA 1 idA).2 2 idA).2 idA).map
          StoredDoc.status = some (some "ready")) :=
  ⟨by decide, render_idempotent storeA 1 2 idA docA (by decide) (by decide)⟩

/-- C6: an update whose payload carries a scenes sequence fully replaces the
stored scenes with the supplied sequence, with no element-wise merge. -/
theorem update_replaces_scenes
    (store : Store) (now : Nat) (id : String) (payload : UpdateScenesRequest)
    (d : StoredDoc) (ss : List Scene)
    (hv : isValidObjectId id = true) (hd : findDoc store id = some d)
    (hs : payload.scenes = .value ss) :
    ∃ d2, findDoc (update_project store now id payload).2 id = some d2 ∧
      d2.scenes = some ss := by
  rw [update_project_snd_found store now id payload d hv hd,
      findDoc_storeWrite_self, hd]
  exact ⟨_, rfl, by simp [applyUpdateDoc, applySet, hs, PayloadField.sentValue]⟩

/-- C6 witness: updating the example project with a two-scene sequence
replaces its stored one-scene sequence exactly. -/
theorem update_replaces_scenes_witness :
    findDoc storeA idA = some docA ∧ payloadScenes.scenes = .value [sceneB, sceneA] ∧
    (∃ d2, findDoc (update_project storeA 3 idA payloadScenes).2 idA = some d2 ∧
      d2.scenes = some [sceneB, sceneA]) :=
  ⟨by decide, rfl,
   update_replaces_scenes storeA 3 idA payloadScenes docA [sceneB, sceneA]
     (by decide) (by decide) rfl⟩

/-- C7: for every valid create payload inserted under a fresh identifier,
create re-reads the inserted document and returns a project whose status is
"draft" and whose output_url is absent. -/
theorem create_returns_draft_no_output
    (store : Store) (newId : String) (now : Nat) (p : VideoProject)
    (hfresh : findDoc store newId = none) :
    ∃ out, create_project store newId now p =
        (.ok out, create_document store newId now p) ∧
      out.status = "draft" ∧ out.output_url = none := by
  have hf : findDoc (create_document store newId now p) newId =
      some { title := some p.title, description := p.description,
             scenes := some p.scenes, music := p.music, status := some "draft",
             output_url := none, updated_at := some now } := by
    unfold create_document
    rw [findDoc_append, hfresh]
    simp [findDoc]
  refine ⟨{ id := newId, title := p.title, description := p.description,
            scenes := p.scenes, music := p.music, status := "draft",
            output_url := none }, ?_, rfl, rfl⟩
  unfold create_project
  simp [hf, _doc_to_out]

/-- C7 witness: creating the example payload under a fresh identifier
returns a draft project without an output URL. -/
theorem create_returns_draft_no_output_witness :
    findDoc [] idA = none ∧
    (∃ out, create_project [] idA 0 vpA = (.ok out, create_document [] idA 0 vpA) ∧
      out.status = "draft" ∧ out.output_url = none) :=
  ⟨rfl, create_returns_draft_no_output [] idA 0 vpA rfl⟩

/-- C8 counterexample: it is false that, over every operation history from
an empty store, `output_url` is set exactly when a render has completed for
that identifier — the update endpoint accepts an `output_url` field
(src/main.py line 98), so a create followed by a plain update sets it with
no render anywhere in the history. -/
theorem output_url_iff_rendered_cex :
    ¬ ∀ (ops : List Op) (id : String),
        outputUrlSet (runTrace [] ops) id = traceRendered [] ops id := by
  intro h
  exact absurd (h [Op.create idA 0 vpA, Op.update 1 idA payloadOutput] idA) (by decide)

/-- C8 amended: once `output_url` is set it is never cleared by any
operation (a null or omitted payload field cannot unset it, and render only
overwrites it), and every completed render sets it to the URL derived from
the identifier; but it being set does not imply a render happened, since an
update payload may also set it. -/
theorem output_url_persistent_and_set_by_render :
    (∀ (store : Store) (op : Op) (id : String),
        outputUrlSet store id = true → outputUrlSet (stepStore store op) id = true) ∧
    (∀ (store : Store) (now : Nat) (id : String) (d : StoredDoc),
        isValidObjectId id = true → findDoc store id = some d →
        (findDoc (render_video store now id).2 id).map StoredDoc.output_url =
          some (some (renderUrl id))) := by
  constructor
  · intro store op id h
    obtain ⟨d, hf, hset⟩ : ∃ d, findDoc store id = some d ∧ d.output_url.isSome = true := by
      unfold outputUrlSet at h
      rcases hfd : findDoc store id with _ | d
      · rw [hfd] at h
        simp at h
      · rw [hfd] at h
        exact ⟨d, rfl, h⟩
    cases op with
    | get i =>
        simp only [stepStore, get_project_snd]
        exact h
    | list n =>
        simp only [stepStore, list_projects_snd]
        exact h
    | create newId now p =>
        have hkeep : findDoc (create_document store newId now p) id = some d := by
          unfold create_document
          rw [findDoc_append, hf]
        simp only [stepStore, create_project_snd]
        unfold outputUrlSet
        rw [hkeep]
        exact hset
    | update now i payload =>
        simp only [stepStore]
        rcases update_project_snd_cases store now i payload with hsnd | ⟨du, hdu, hsnd⟩
        · rw [hsnd]
          exact h
        · rw [hsnd]
          by_cases hij : i = id
          · subst hij
            obtain rfl : du = d := by rw [hdu] at hf; exact Option.some.inj hf
            unfold outputUrlSet
            rw [findDoc_storeWrite_self, hdu]
            rcases hsv : payload.output_url.sentValue with _ | u
            · simpa [applyUpdateDoc, applySet, hsv] using hset
            · simp [applyUpdateDoc, applySet, hsv]
          · unfold outputUrlSet
            rw [findDoc_storeWrite_ne _ _ _ _ hij, hf]
            exact hset
    | render now i =>
        simp only [stepStore]
        rcases render_video_snd_cases store now i with hsnd | ⟨hfound, hsnd⟩
        · rw [hsnd]
          exact h
        · rw [hsnd]
          by_cases hij : i = id
          · subst hij
            unfold outputUrlSet
            rw [findDoc_storeWrite_self, hf]
            simp
          · unfold outputUrlSet
            rw [findDoc_storeWrite_ne _ _ _ _ hij, hf]
            exact hset
  · intro store now id d hv hd
    have h := render_video_found store now id d hv hd
    simp only [h, findDoc_storeWrite_self, hd, Option.map_some']

/-- C8 amended witness: on a store whose project already carries an output
URL an update leaves it set, and a render of the example store sets it to
the derived URL. -/
theorem output_url_persistent_and_set_by_render_witness :
    outputUrlSet storeReady idA = true ∧
    outputUrlSet (stepStore storeReady (Op.update 2 idA payloadTitle)) idA = true ∧
    (findDoc (render_video storeA 1 idA).2 idA).map StoredDoc.output_url =
      some (some (renderUrl idA)) :=
  ⟨by decide,
   output_url_persistent_and_set_by_render.1 storeReady
     (Op.update 2 idA payloadTitle) idA (by decide),
   output_url_persistent_and_set_by_render.2 storeA 1 idA docA (by decide) (by decide)⟩

/-- C9 counterexample: it is false that every mutating operation stamps a
fresh server-side `updated_at` — the render endpoint's `update_one` carries
only `$set {status, output_url}` and no `$currentDate` (src/main.py line
139), so a render at server time 10 leaves a document stamped at time 5
untouched at 5. -/
theorem updated_at_refreshed_on_every_mutation_cex :
    ¬ ((∀ (store : Store) (now : Nat) (id : String) (payload : UpdateScenesRequest)
          (d : StoredDoc), isValidObjectId id = true → findDoc store id = some d →
          (findDoc (update_project store now id payload).2 id).map StoredDoc.updated_at =
            some (some now)) ∧
       (∀ (store : Store) (now : Nat) (id : String) (d : StoredDoc),
          isValidObjectId id = true → findDoc store id = some d →
          (findDoc (render_video store now id).2 id).map StoredDoc.updated_at =
            some (some now))) := by
  intro h
  exact absurd (h.2 storeStamped 10 idA docStamped (by decide) (by decide)) (by decide)

/-- C9 amended: a successful update stamps the stored `updated_at` with the
server time of the call, but a successful render leaves `updated_at`
exactly as it was. -/
theorem update_stamps_updated_at_render_does_not
    (store : Store) (now : Nat) (id : String) (payload : UpdateScenesRequest)
    (d : StoredDoc)
    (hv : isValidObjectId id = true) (hd : findDoc store id = some d) :
    (findDoc (update_project store now id payload).2 id).map StoredDoc.updated_at =
      some (some now) ∧
    (findDoc (render_video store now id).2 id).map StoredDoc.updated_at =
      some d.updated_at := by
  constructor
  · rw [update_project_snd_found store now id payload d hv hd,
        findDoc_storeWrite_self, hd]
    rfl
  · have h := render_video_found store now id d hv hd
    simp only [h, findDoc_storeWrite_self, hd, Option.map_some']

/-- C9 amended witness: updating the time-5 document at server time 10
stamps 10, while rendering it at server time 10 leaves the stamp at 5. -/
theorem update_stamps_updated_at_render_does_not_witness :
    findDoc storeStamped idA = some docStamped ∧
    (findDoc (update_project storeStamped 10 idA payloadTitle).2 idA).map
        StoredDoc.updated_at = some (some 10) ∧
    (findDoc (render_video storeStamped 10 idA).2 idA).map StoredDoc.updated_at =
      some docStamped.updated_at :=
  ⟨by decide,
   (update_stamps_updated_at_render_does_not storeStamped 10 idA payloadTitle
      docStamped (by decide) (by decide)).1,
   (update_stamps_updated_at_render_does_not storeStamped 10 idA payloadTitle
      docStamped (by decide) (by decide)).2⟩

/-- C10: reconstitution tolerates stored documents missing fields: a
document with no status field comes back with status "draft" and one with
no scenes field comes back with an empty scene sequence rather than
failing; get and list return exactly that reconstitution. -/
theorem missing_status_and_scenes_defaulted
    (id t : String) (d : StoredDoc)
    (ht : d.title = some t) (hs : d.status = none) (hsc : d.scenes = none) :
    ∃ out, _doc_to_out id d = some out ∧ out.status = "draft" ∧ out.scenes = [] ∧
      (isValidObjectId id = true → get_project [(id, d)] id = (.ok out, [(id, d)])) ∧
      list_projects [(id, d)] 50 = (.ok [out], [(id, d)]) := by
  have hout : _doc_to_out id d =
      some { id := id, title := t, description := d.description, scenes := [],
             music := d.music, status := "draft", output_url := d.output_url } := by
    unfold _doc_to_out
    rw [ht, hs, hsc]
    rfl
  refine ⟨_, hout, rfl, rfl, fun hv => ?_, ?_⟩
  · unfold get_project
    simp [hv, findDoc, hout]
  · unfold list_projects get_documents
    simp [List.mapM, List.mapM.loop, hout]

/-- C10 witness: a stored document carrying only a title is returned by get
with status "draft" and no scenes. -/
theorem missing_status_and_scenes_defaulted_witness :
    docNoStatus.title = some "Bare" ∧ docNoStatus.status = none ∧
    docNoStatus.scenes = none ∧
    (∃ out, _doc_to_out idA docNoStatus = some out ∧ out.status = "draft" ∧
      out.scenes = [] ∧
      (isValidObjectId idA = true →
        get_project [(idA, docNoStatus)] idA = (.ok out, [(idA, docNoStatus)])) ∧
      list_projects [(idA, docNoStatus)] 50 = (.ok [out], [(idA, docNoStatus)])) :=
  ⟨rfl, rfl, rfl,
   missing_status_and_scenes_defaulted idA "Bare" docNoStatus rfl rfl rfl⟩

end CinematicBuilder
